import Mathlib

/-!
Verification of the AP2Stellar example client
(`examples/simple-ai-agent.py`, class `AIAgentPaymentService`).

The Python program is a thin HTTP client: it builds JSON request bodies,
sends them, and classifies JSON responses.  We embed it shallowly:

* Python dicts / parsed JSON values become the inductive `Json`
  (insertion-ordered association lists for objects, as Python dicts are).
* Python numerics: the program converts decimal strings with `float(...)`
  and compares against the literals `1.0` and `0.95`.  We model these
  decimal values exactly over `Rat`.
* The network is a parameter: each operation takes the HTTP status code
  and parsed JSON body the remote service replied with.  Transport
  failures and non-JSON bodies are outside the embedding (every claim
  conditions on a JSON reply).
* Exceptions become `Except PyErr`; `d[k]` on a missing key raises
  (`KeyError`), `d.get(k, default)` does not but raises when `d` is not
  a dict.
* Nondeterminism (`uuid.uuid4()`) and the clock (`time.time()`) become
  explicit parameters supplied per invocation.
-/

/-- A parsed JSON value / Python dict as the program manipulates them.
Objects keep insertion order, like Python dicts. -/
inductive Json where
  | null : Json
  | bool : Bool → Json
  | num : Rat → Json
  | str : String → Json
  | arr : List Json → Json
  | obj : List (String × Json) → Json

/-- Python exceptions the embedded code can raise. -/
inductive PyErr where
  /-- `response.raise_for_status()` on a 4xx/5xx reply. -/
  | httpError : Nat → PyErr
  /-- `d[k]` with `k` absent, or subscripting / `.get` on a non-dict. -/
  | keyError : String → PyErr
  /-- `float(s)` on a non-numeric string or non-numeric value. -/
  | valueError : PyErr
  /-- `raise Exception(payload)` in the program itself. -/
  | appError : Json → PyErr

/-- Ordered lookup in an object's field list (first match, as in dicts). -/
def lookupField : List (String × Json) → String → Option Json
  | [], _ => none
  | (k, v) :: rest, key => if k == key then some v else lookupField rest key

namespace Json

/-- Field of an object; `none` when absent or when the value is not an
object. -/
def get? : Json → String → Option Json
  | .obj fs, k => lookupField fs k
  | _, _ => none

/-- Python `d.get(k, default)` on a value known to be a dict. -/
def getD (j : Json) (k : String) (default : Json) : Json :=
  match j.get? k with
  | some v => v
  | none => default

/-- Python `d.get(k, default)`: raises when `d` is not a dict. -/
def pyGet (j : Json) (k : String) (default : Json) : Except PyErr Json :=
  match j with
  | .obj _ => .ok (j.getD k default)
  | _ => .error (.keyError k)

/-- Python `d[k]`: raises `KeyError` when the key is absent (we fold the
`TypeError` of subscripting a non-dict into the same constructor). -/
def idx (j : Json) (k : String) : Except PyErr Json :=
  match j.get? k with
  | some v => .ok v
  | none => .error (.keyError k)

/-- Python `v == "s"` for a string literal: `True` exactly on equal
strings, `False` on every other value (including `None`). -/
def eqStr (j : Json) (s : String) : Bool :=
  match j with
  | .str t => t == s
  | _ => false

/-- Python truthiness of a JSON value (`if data.get("transaction_details"):`). -/
def truthy : Json → Bool
  | .null => false
  | .bool b => b
  | .num q => q != 0
  | .str s => !s.isEmpty
  | .arr xs => !xs.isEmpty
  | .obj fs => !fs.isEmpty

/-- Python `d[k] = v` for a key not yet present: appended in insertion
order (`payment_intent["callback_url"] = ...`). -/
def setNew (j : Json) (k : String) (v : Json) : Json :=
  match j with
  | .obj fs => .obj (fs ++ [(k, v)])
  | other => other

end Json

/-- Accumulate the value of a digit string. -/
def digitsVal (cs : List Char) : Option Nat :=
  cs.foldl
    (fun acc c =>
      match acc with
      | none => none
      | some n => if c.isDigit then some (n * 10 + (c.toNat - 48)) else none)
    (some 0)

/-- Python `float(s)` on a decimal numeric string (optional sign, digits,
optional fractional part), modelled exactly over `Rat`; `none` is the
`ValueError` case.  The program only ever feeds decimal amount strings
such as "15.00" to `float`. -/
def parseDecimal? (s : String) : Option Rat :=
  let cs := s.toList
  let signed : Bool × List Char :=
    match cs with
    | '-' :: rest => (true, rest)
    | '+' :: rest => (false, rest)
    | _ => (false, cs)
  let neg := signed.1
  let intPart := signed.2.takeWhile (·.isDigit)
  let rest := signed.2.dropWhile (·.isDigit)
  match rest with
  | [] =>
    if intPart.isEmpty then none
    else (digitsVal intPart).map fun n => if neg then -(n : Rat) else (n : Rat)
  | '.' :: frac =>
    if frac.all (·.isDigit) && !(intPart.isEmpty && frac.isEmpty) then
      match digitsVal intPart, digitsVal frac with
      | some i, some f =>
        let q : Rat := (i : Rat) + (f : Rat) / ((10 : Rat) ^ frac.length)
        some (if neg then -q else q)
      | _, _ => none
    else none
  | _ => none

/-- Python `float(v)` applied to a JSON value: parses strings, passes
numbers through, anything else is an error. -/
def pyFloat (j : Json) : Except PyErr Rat :=
  match j with
  | .num q => .ok q
  | .str s =>
    match parseDecimal? s with
    | some q => .ok q
    | none => .error .valueError
  | .bool b => .ok (if b then 1 else 0)
  | _ => .error .valueError

section scratchExamples
attribute [local semireducible] Rat.mul Rat.add Rat.inv Rat.sub Rat.ofScientific
example : parseDecimal? "15.00" = some 15 := rfl
example : parseDecimal? "13.00" = some 13 := rfl
example : parseDecimal? "0.30" = some (3 / 10 : Rat) := rfl
example : pyFloat (.str "14.50") = .ok (29 / 2 : Rat) := rfl
end scratchExamples

/-- The construction parameters of `AIAgentPaymentService.__init__`. -/
structure Agent where
  agent_id : String
  jwt_secret : String
  api_url : String := "http://localhost:3000"

/-- `response.raise_for_status()`: raises `HTTPError` on a 4xx/5xx
status code, does nothing otherwise. -/
def raise_for_status (code : Nat) : Except PyErr Unit :=
  if 400 ≤ code then .error (.httpError code) else .ok ()

/-- The JWT claim set built by `generate_auth_token`: identity, the fixed
permission list, issued-at `now` (the value of `time.time()` during the
call) and expiry one hour later. -/
def authTokenPayload (agent : Agent) (now : Nat) : Json :=
  .obj
    [("agent_id", .str agent.agent_id),
     ("permissions", .arr [.str "payment:send", .str "payment:receive"]),
     ("iat", .num now),
     ("exp", .num (now + 3600))]

/-- A JSON-ish rendering used to model signing, recursing on an explicit
depth bound so that it stays a plain structural recursion.  It only needs
to be a deterministic total function; the claim set the program signs has
depth 2, far below the bound `jwtEncode` passes. -/
def renderJson : Nat → Json → String
  | _, .null => "null"
  | _, .bool b => if b then "true" else "false"
  | _, .num q => toString q.num ++ "/" ++ toString q.den
  | _, .str s => "\"" ++ s ++ "\""
  | 0, .arr _ => "[...]"
  | depth + 1, .arr xs =>
    "[" ++ String.intercalate "," (xs.map (renderJson depth)) ++ "]"
  | 0, .obj _ => "\x7b...\x7d"
  | depth + 1, .obj fs =>
    "\x7b" ++
      String.intercalate ","
        (fs.map fun f => "\"" ++ f.1 ++ "\":" ++ renderJson depth f.2) ++
      "\x7d"

/-- Modelled: `jwt.encode(payload, secret, algorithm)` is third-party
library code (PyJWT), not part of this repository; modelled as a
deterministic pairing of the claim set, the key and the algorithm. -/
def jwtEncode (payload : Json) (secret : String) (algorithm : String) : String :=
  "jwt(" ++ renderJson 64 payload ++ "," ++ secret ++ "," ++ algorithm ++ ")"

/-- `generate_auth_token`: JWT over `authTokenPayload` with the agent's
secret and HS256.  `now` is the clock reading of this invocation. -/
def generate_auth_token (agent : Agent) (now : Nat) : String :=
  jwtEncode (authTokenPayload agent now) agent.jwt_secret "HS256"

set_option linter.unusedVariables false in
/-- `get_quote`: the remote reply is the pair of HTTP status `code` and
parsed JSON `body`.  After `raise_for_status`, a body with
`status == "success"` yields `data["data"]` (the progress prints
subscript five of its fields, so a missing one raises `KeyError`);
any other body raises
`Exception(data.get("error", {}).get("message", "Failed to get quote"))`.
The three request parameters only feed the query string and the progress
prints, so the result depends on the reply alone. -/
def get_quote (source_currency destination_currency amount : String)
    (code : Nat) (body : Json) : Except PyErr Json := do
  let _ ← raise_for_status code
  let statusVal ← body.pyGet "status" .null
  if statusVal.eqStr "success" then
    let quote ← body.idx "data"
    let _ ← quote.idx "source_currency"
    let _ ← quote.idx "exchange_rate"
    let _ ← quote.idx "destination_currency"
    let _ ← quote.idx "estimated_destination_amount"
    let _ ← quote.idx "estimated_fee"
    pure quote
  else
    let errVal ← body.pyGet "error" (.obj [])
    let msg ← errVal.pyGet "message" (.str "Failed to get quote")
    throw (.appError msg)

/-- The dict `send_payment` returns: `success`, `intent_id`, and either
`confirmation` (the whole response body) or `error` (the response's
`error` value, Python `None` i.e. `none` when absent). -/
structure SendResult where
  success : Bool
  intent_id : String
  confirmation : Option Json := none
  error : Option Json := none

/-- The `payment_intent` dict `send_payment` builds, in insertion order.
`intentId` is this invocation's `uuid.uuid4()` draw and `now` its clock
reading (used by the `generate_auth_token()` call inside the `sender`
block).  Subscripts of missing `payment_details` keys raise `KeyError`;
`destination_currency` and `metadata` use `.get` with defaults, and
`callback_url` is copied only when present. -/
def build_payment_intent (agent : Agent) (payment_details : Json)
    (intentId : String) (now : Nat) : Except PyErr Json := do
  let amount ← payment_details.idx "amount"
  let currency ← payment_details.idx "currency"
  let recipientAgent ← payment_details.idx "recipient_agent_id"
  let recipientAddr ← payment_details.idx "recipient_address"
  let defaultCur ← payment_details.idx "currency"
  let destCur ← payment_details.pyGet "destination_currency" defaultCur
  let metadata ← payment_details.pyGet "metadata" (.obj [])
  let base : Json := .obj
    [("intent_id", .str intentId),
     ("amount", amount),
     ("currency", currency),
     ("recipient", .obj
       [("agent_id", recipientAgent),
        ("payment_address", recipientAddr),
        ("destination_currency", destCur)]),
     ("sender", .obj
       [("agent_id", .str agent.agent_id),
        ("authorization_token", .str (generate_auth_token agent now))]),
     ("metadata", metadata)]
  match payment_details.get? "callback_url" with
  | some cb => pure (base.setNew "callback_url" cb)
  | none => pure base

/-- `send_payment`: builds the intent, POSTs it, and classifies the parsed
response `body` (the code calls `response.json()` without
`raise_for_status`, so only the body matters).  `status == "completed"`
yields a success dict after the success prints subscript the transaction,
amount and fee fields (a missing one raises); any other status yields a
failure dict carrying `data.get("error")`.  Both carry this invocation's
`intent_id`. -/
def send_payment (agent : Agent) (payment_details : Json)
    (intentId : String) (now : Nat) (body : Json) : Except PyErr SendResult := do
  let _ ← build_payment_intent agent payment_details intentId now
  let statusVal ← body.pyGet "status" .null
  if statusVal.eqStr "completed" then
    let td ← body.idx "transaction_details"
    let _ ← td.idx "transaction_hash"
    let amt ← body.idx "amount"
    let _ ← amt.idx "sent"
    let _ ← amt.idx "currency_sent"
    let _ ← amt.idx "received"
    let _ ← amt.idx "currency_received"
    let fees ← body.idx "fees"
    let _ ← fees.idx "network_fee"
    let _ ← td.idx "settlement_time_seconds"
    pure { success := true, intent_id := intentId, confirmation := some body }
  else
    let errEnv ← body.pyGet "error" (.obj [])
    let _ ← errEnv.pyGet "message" .null
    pure { success := false, intent_id := intentId, error := body.get? "error" }

set_option linter.unusedVariables false in
/-- `check_payment_status`: a 404 reply short-circuits to Python `None`
(`none`) before the body is even parsed; otherwise the status print
subscripts `data["status"]` (raising on a missing key), the optional
transaction print subscripts the hash when `transaction_details` is
truthy, and the parsed body is returned. -/
def check_payment_status (intentId : String) (code : Nat) (body : Json) :
    Except PyErr (Option Json) := do
  if code == 404 then
    pure none
  else
    let _ ← body.idx "status"
    let td ← body.pyGet "transaction_details" .null
    if td.truthy then
      let _ ← td.idx "transaction_hash"
      pure (some body)
    else
      pure (some body)

/-- The printed warning line for `fee > 1.0`. -/
def highFeeWarning : String := "   ⚠️  Warning: High network fee"

/-- The printed warning line for `expected_receive < amount * 0.95`. -/
def unfavorableRateWarning : String :=
  "   ⚠️  Warning: Exchange rate may not be favorable (>5% loss)"

/-- The advisory warning lines `evaluate_payment` prints, in program
order, as a function of the parsed request amount, expected receive
amount and fee. -/
def warningLines (reqAmt expected fee : Rat) : List String :=
  (if fee > 1.0 then [highFeeWarning] else []) ++
    (if expected < reqAmt * 0.95 then [unfavorableRateWarning] else [])

/-- The three arguments `evaluate_payment` passes to `get_quote`, in
evaluation order: `payment_request["currency"]`,
`payment_request.get("destination_currency", payment_request["currency"])`
(Python evaluates the default subscript eagerly), and
`payment_request["amount"]`. -/
def evaluate_quote_args (payment_request : Json) :
    Except PyErr (Json × Json × Json) := do
  let cur ← payment_request.idx "currency"
  let defaultCur ← payment_request.idx "currency"
  let dst ← payment_request.pyGet "destination_currency" defaultCur
  let amt ← payment_request.idx "amount"
  pure (cur, dst, amt)

/-- `evaluate_payment`: gets a quote for the request (the reply again
supplied as `code`/`body`), parses the expected receive amount and fee
with `float`, prints the advisory warnings, and returns the decision
dict `{approved: True, quote, reasoning}` paired with the warning lines
it printed. -/
def evaluate_payment (payment_request : Json) (code : Nat) (body : Json) :
    Except PyErr (Json × List String) := do
  let _ ← evaluate_quote_args payment_request
  let quote ← get_quote "" "" "" code body
  let expected_receive ← pyFloat (← quote.idx "estimated_destination_amount")
  let fee ← pyFloat (← quote.idx "estimated_fee")
  let _ ← quote.idx "destination_currency"
  let reqAmtVal ← payment_request.idx "amount"
  let reqAmt ← pyFloat reqAmtVal
  let warns := warningLines reqAmt expected_receive fee
  pure
    (.obj
      [("approved", .bool true),
       ("quote", quote),
       ("reasoning", .str "Payment within acceptable parameters")],
     warns)

/-- Two-level field access, `j[k1][k2]` as a partial lookup. -/
def Json.get2? (j : Json) (k1 k2 : String) : Option Json :=
  match j.get? k1 with
  | some v => v.get? k2
  | none => none

/-! ## Concrete fixtures

The payment request of the demo driver and the replies of the spec's
end-to-end scenarios, used to exercise the theorems on closed inputs. -/

/-- The demo driver's `payment_request`. -/
def reqA : Json := .obj
  [("amount", .str "15.00"),
   ("currency", .str "XLM"),
   ("destination_currency", .str "USDC"),
   ("recipient_agent_id", .str "python-merchant-agent"),
   ("recipient_address", .str "stellar:GDPSW6ONJR7QJEQXB2V4TBRTSJ4ALSSMCMI6GVAN2XMNVKDGV7HE4K63"),
   ("metadata", .obj
     [("purpose", .str "AI model training credits"),
      ("service", .str "Claude API Usage")])]

/-- The same request without the optional `destination_currency` key. -/
def reqNoDest : Json := .obj
  [("amount", .str "15.00"),
   ("currency", .str "XLM"),
   ("recipient_agent_id", .str "python-merchant-agent"),
   ("recipient_address", .str "stellar:GDPSW6ONJR7QJEQXB2V4TBRTSJ4ALSSMCMI6GVAN2XMNVKDGV7HE4K63")]

/-- Scenario A quote: favourable rate, low fee. -/
def quoteA : Json := .obj
  [("source_currency", .str "XLM"),
   ("destination_currency", .str "USDC"),
   ("exchange_rate", .str "0.9667"),
   ("estimated_destination_amount", .str "14.50"),
   ("estimated_fee", .str "0.30")]

/-- Scenario B quote: `estimated_destination_amount = "13.00"`, below
`15.00 * 0.95`. -/
def quoteB : Json := .obj
  [("source_currency", .str "XLM"),
   ("destination_currency", .str "USDC"),
   ("exchange_rate", .str "0.8667"),
   ("estimated_destination_amount", .str "13.00"),
   ("estimated_fee", .str "0.30")]

/-- A quote with `estimated_fee = "1.50"`, above the 1.0 threshold. -/
def quoteC : Json := .obj
  [("source_currency", .str "XLM"),
   ("destination_currency", .str "USDC"),
   ("exchange_rate", .str "0.9667"),
   ("estimated_destination_amount", .str "14.50"),
   ("estimated_fee", .str "1.50")]

/-- Success envelope around a quote. -/
def successEnv (q : Json) : Json := .obj [("status", .str "success"), ("data", q)]

/-- An error envelope from the quoting endpoint. -/
def errorEnv : Json := .obj
  [("status", .str "error"),
   ("error", .obj [("message", .str "Unsupported currency pair")])]

/-- The decision dict `evaluate_payment` builds around a quote. -/
def decisionOf (q : Json) : Json := .obj
  [("approved", .bool true),
   ("quote", q),
   ("reasoning", .str "Payment within acceptable parameters")]

/-- The demo agent (the driver's construction parameters, secret elided). -/
def agentX : Agent :=
  { agent_id := "python-ai-agent-001", jwt_secret := "test-secret" }

/-- Scenario C reply: a completed payment. -/
def completedReply : Json := .obj
  [("status", .str "completed"),
   ("transaction_details", .obj
     [("transaction_hash", .str "abc123"),
      ("settlement_time_seconds", .num 5)]),
   ("amount", .obj
     [("sent", .str "15.00"),
      ("currency_sent", .str "XLM"),
      ("received", .str "14.50"),
      ("currency_received", .str "USDC")]),
   ("fees", .obj [("network_fee", .str "0.30")])]

/-- Scenario D reply: a rejected payment. -/
def rejectedReply : Json := .obj
  [("status", .str "rejected"),
   ("error", .obj [("message", .str "insufficient funds")])]

/-- The result dict of `send_payment` on the scenario D (rejected) reply. -/
def rejectedResult : SendResult :=
  { success := false, intent_id := "intent-1",
    error := some (.obj [("message", .str "insufficient funds")]) }

/-- The payment intent built for `agentX` and `reqA`. -/
def intentFixtureA (intentId : String) (now : Nat) : Json := .obj
  [("intent_id", .str intentId),
   ("amount", .str "15.00"),
   ("currency", .str "XLM"),
   ("recipient", .obj
     [("agent_id", .str "python-merchant-agent"),
      ("payment_address", .str "stellar:GDPSW6ONJR7QJEQXB2V4TBRTSJ4ALSSMCMI6GVAN2XMNVKDGV7HE4K63"),
      ("destination_currency", .str "USDC")]),
   ("sender", .obj
     [("agent_id", .str "python-ai-agent-001"),
      ("authorization_token", .str (generate_auth_token agentX now))]),
   ("metadata", .obj
     [("purpose", .str "AI model training credits"),
      ("service", .str "Claude API Usage")])]

/-- The payment intent built for `agentX` and `reqNoDest`: the source
currency fills the recipient's `destination_currency`, and the missing
`metadata` defaults to the empty dict. -/
def intentFixtureND (intentId : String) (now : Nat) : Json := .obj
  [("intent_id", .str intentId),
   ("amount", .str "15.00"),
   ("currency", .str "XLM"),
   ("recipient", .obj
     [("agent_id", .str "python-merchant-agent"),
      ("payment_address", .str "stellar:GDPSW6ONJR7QJEQXB2V4TBRTSJ4ALSSMCMI6GVAN2XMNVKDGV7HE4K63"),
      ("destination_currency", .str "XLM")]),
   ("sender", .obj
     [("agent_id", .str "python-ai-agent-001"),
      ("authorization_token", .str (generate_auth_token agentX now))]),
   ("metadata", .obj [])]

/-! ## Helper lemmas -/

theorem exceptBind_ok {ε α β : Type} {x : Except ε α} {f : α → Except ε β} {b : β}
    (h : x >>= f = .ok b) : ∃ a, x = .ok a ∧ f a = .ok b := by
  cases x with
  | ok a => exact ⟨a, rfl, h⟩
  | error e => simp [Bind.bind, Except.bind] at h

theorem pyGet_ok {j : Json} {k : String} {deflt v : Json}
    (h : j.pyGet k deflt = .ok v) : v = j.getD k deflt := by
  cases j <;> simp_all [Json.pyGet]

/-- Whatever `evaluate_payment` returns was assembled from a successful
quote and the three `float` conversions, with the decision dict and the
warning lines determined by them. -/
theorem evaluate_payment_inv {req : Json} {code : Nat} {body d : Json}
    {w : List String}
    (h : evaluate_payment req code body = .ok (d, w)) :
    ∃ quote expected fee reqAmt,
      get_quote "" "" "" code body = .ok quote ∧
      (quote.idx "estimated_destination_amount" >>= pyFloat) = .ok expected ∧
      (quote.idx "estimated_fee" >>= pyFloat) = .ok fee ∧
      (req.idx "amount" >>= pyFloat) = .ok reqAmt ∧
      d = Json.obj
        [("approved", .bool true),
         ("quote", quote),
         ("reasoning", .str "Payment within acceptable parameters")] ∧
      w = warningLines reqAmt expected fee := by
  unfold evaluate_payment at h
  obtain ⟨_, _, h⟩ := exceptBind_ok h
  obtain ⟨quote, hq, h⟩ := exceptBind_ok h
  obtain ⟨x, hx, h⟩ := exceptBind_ok h
  obtain ⟨expected, hex, h⟩ := exceptBind_ok h
  obtain ⟨y, hy, h⟩ := exceptBind_ok h
  obtain ⟨fee, hfee, h⟩ := exceptBind_ok h
  obtain ⟨_, _, h⟩ := exceptBind_ok h
  obtain ⟨rv, hrv, h⟩ := exceptBind_ok h
  obtain ⟨reqAmt, hra, h⟩ := exceptBind_ok h
  simp only [pure, Except.pure, Except.ok.injEq, Prod.mk.injEq] at h
  refine ⟨quote, expected, fee, reqAmt, hq, ?_, ?_, ?_, h.1.symm, h.2.symm⟩
  · rw [hx]; simpa [Bind.bind, Except.bind] using hex
  · rw [hy]; simpa [Bind.bind, Except.bind] using hfee
  · rw [hrv]; simpa [Bind.bind, Except.bind] using hra

theorem warning_strings_distinct : highFeeWarning ≠ unfavorableRateWarning := by
  decide

theorem highFee_mem_warningLines {a e f : Rat} :
    highFeeWarning ∈ warningLines a e f ↔ f > 1.0 := by
  by_cases h1 : f > 1.0 <;> by_cases h2 : e < a * 0.95 <;>
    simp [warningLines, h1, h2, warning_strings_distinct]

theorem rate_mem_warningLines {a e f : Rat} :
    unfavorableRateWarning ∈ warningLines a e f ↔ e < a * 0.95 := by
  by_cases h1 : f > 1.0 <;> by_cases h2 : e < a * 0.95 <;>
    simp [warningLines, h1, h2, Ne.symm warning_strings_distinct]

theorem warningLines_eq_nil {a e f : Rat} :
    warningLines a e f = [] ↔ ¬ f > 1.0 ∧ ¬ e < a * 0.95 := by
  by_cases h1 : f > 1.0 <;> by_cases h2 : e < a * 0.95 <;>
    simp [warningLines, h1, h2]

/-! ## Claims -/

/-- C1: for every payment request on which the quote call succeeds and
`evaluate_payment` returns a decision, the decision's `approved` field is
`True` — whatever the fee and exchange-rate thresholds said, they never
cause rejection. -/
theorem C1_evaluate_payment_always_approves
    (req : Json) (code : Nat) (body d : Json) (w : List String)
    (h : evaluate_payment req code body = .ok (d, w)) :
    d.get? "approved" = some (.bool true) := by
  obtain ⟨quote, e, f, a, _, _, _, _, hd, _⟩ := evaluate_payment_inv h
  subst hd
  simp [Json.get?, lookupField]

section concreteWitnesses
attribute [local semireducible] Rat.mul Rat.add Rat.inv Rat.sub Rat.ofScientific

theorem C1_witness :
    evaluate_payment reqA 200 (successEnv quoteA) = .ok (decisionOf quoteA, []) ∧
    (decisionOf quoteA).get? "approved" = some (.bool true) :=
  ⟨by rfl,
   C1_evaluate_payment_always_approves reqA 200 (successEnv quoteA)
     (decisionOf quoteA) [] (by rfl)⟩

end concreteWitnesses

/-- C10: whenever `evaluate_payment` returns a decision, its `reasoning`
field is the constant string "Payment within acceptable parameters",
independent of the advisory thresholds. -/
theorem C10_reasoning_is_constant
    (req : Json) (code : Nat) (body d : Json) (w : List String)
    (h : evaluate_payment req code body = .ok (d, w)) :
    d.get? "reasoning" = some (.str "Payment within acceptable parameters") := by
  obtain ⟨quote, e, f, a, _, _, _, _, hd, _⟩ := evaluate_payment_inv h
  subst hd
  simp [Json.get?, lookupField]

/-- C2 (amended): the decision dict `evaluate_payment` returns has no
`warnings` field; the warning messages exist only as printed lines, the
high-network-fee line appearing exactly when the quoted fee exceeds 1.0
and the unfavorable-exchange-rate line exactly when the expected receive
amount is below the requested amount times 0.95 (no line when neither
threshold trips). -/
theorem C2_warnings_printed_not_returned
    (req : Json) (code : Nat) (body d quote : Json) (w : List String)
    (expected fee reqAmt : Rat)
    (heval : evaluate_payment req code body = .ok (d, w))
    (hq : get_quote "" "" "" code body = .ok quote)
    (hex : (quote.idx "estimated_destination_amount" >>= pyFloat) = .ok expected)
    (hfee : (quote.idx "estimated_fee" >>= pyFloat) = .ok fee)
    (hra : (req.idx "amount" >>= pyFloat) = .ok reqAmt) :
    d.get? "warnings" = none ∧
    (highFeeWarning ∈ w ↔ fee > 1.0) ∧
    (unfavorableRateWarning ∈ w ↔ expected < reqAmt * 0.95) ∧
    (w = [] ↔ ¬ fee > 1.0 ∧ ¬ expected < reqAmt * 0.95) := by
  obtain ⟨q', e', f', a', hq', hex', hfee', hra', hd, hw⟩ :=
    evaluate_payment_inv heval
  rw [hq] at hq'
  injection hq' with h1
  subst h1
  rw [hex] at hex'; injection hex' with h2; subst h2
  rw [hfee] at hfee'; injection hfee' with h3; subst h3
  rw [hra] at hra'; injection hra' with h4; subst h4
  subst hd hw
  exact ⟨by simp [Json.get?, lookupField], highFee_mem_warningLines,
    rate_mem_warningLines, warningLines_eq_nil⟩

section concreteWitnesses2
attribute [local semireducible] Rat.mul Rat.add Rat.inv Rat.sub Rat.ofScientific

/-- C2, refuted as stated: on the spec's scenario B reply
(`estimated_destination_amount = "13.00"` against a 15.00 request) the
unfavorable-rate threshold trips, yet the returned decision carries no
`warnings` field at all — the warning is only a printed line. -/
theorem C2_counterexample_no_warnings_field :
    evaluate_payment reqA 200 (successEnv quoteB) =
      .ok (decisionOf quoteB, [unfavorableRateWarning]) ∧
    (decisionOf quoteB).get? "warnings" = none :=
  ⟨by rfl, by rfl⟩

theorem C2_witness :
    evaluate_payment reqA 200 (successEnv quoteB) =
      .ok (decisionOf quoteB, [unfavorableRateWarning]) ∧
    ((decisionOf quoteB).get? "warnings" = none ∧
      (highFeeWarning ∈ [unfavorableRateWarning] ↔ (3 / 10 : Rat) > 1.0) ∧
      (unfavorableRateWarning ∈ [unfavorableRateWarning] ↔
        (13 : Rat) < (15 : Rat) * 0.95) ∧
      ([unfavorableRateWarning] = ([] : List String) ↔
        ¬ (3 / 10 : Rat) > 1.0 ∧ ¬ (13 : Rat) < (15 : Rat) * 0.95)) :=
  ⟨by rfl,
   C2_warnings_printed_not_returned reqA 200 (successEnv quoteB)
     (decisionOf quoteB) quoteB [unfavorableRateWarning] 13 (3 / 10) 15
     (by rfl) (by rfl) (by rfl) (by rfl) (by rfl)⟩

theorem C10_witness :
    evaluate_payment reqA 200 (successEnv quoteC) =
      .ok (decisionOf quoteC, [highFeeWarning]) ∧
    (decisionOf quoteC).get? "reasoning" =
      some (.str "Payment within acceptable parameters") :=
  ⟨by rfl,
   C10_reasoning_is_constant reqA 200 (successEnv quoteC)
     (decisionOf quoteC) [highFeeWarning] (by rfl)⟩

end concreteWitnesses2

/-- C5: a reply with HTTP status 404 makes `check_payment_status` return
Python `None` — the not-found result — for every reply body, and no
exception is raised (the result is always `ok`). -/
theorem C5_status_404_returns_none (intentId : String) (body : Json) :
    check_payment_status intentId 404 body = .ok none := rfl

/-- C6: every invocation of `generate_auth_token` signs the claim set
`authTokenPayload`, whose `exp` is its `iat` (this invocation's clock
reading) plus the fixed 3600-second validity window and whose
`permissions` are exactly ["payment:send", "payment:receive"]; the token
is the pure function `jwtEncode` of that claim set and the credential. -/
theorem C6_token_claim_set (agent : Agent) (now : Nat) :
    (authTokenPayload agent now).get? "iat" = some (.num now) ∧
    (authTokenPayload agent now).get? "exp" = some (.num (now + 3600)) ∧
    (authTokenPayload agent now).get? "permissions" =
      some (.arr [.str "payment:send", .str "payment:receive"]) ∧
    generate_auth_token agent now =
      jwtEncode (authTokenPayload agent now) agent.jwt_secret "HS256" := by
  refine ⟨?_, ?_, ?_, rfl⟩ <;> simp [authTokenPayload, Json.get?, lookupField]

/-- C4: a 2xx reply bearing a success envelope whose `data` object carries
the five quote fields makes `get_quote` return exactly that `data` object
— the same value, so every field is passed through untouched and none is
dropped. -/
theorem C4_get_quote_returns_data_exactly
    (src dst amt : String) (code : Nat) (body q : Json)
    (hcode : code < 400)
    (hstatus : (body.getD "status" .null).eqStr "success" = true)
    (hdata : body.get? "data" = some q)
    (h1 : (q.get? "source_currency").isSome = true)
    (h2 : (q.get? "exchange_rate").isSome = true)
    (h3 : (q.get? "destination_currency").isSome = true)
    (h4 : (q.get? "estimated_destination_amount").isSome = true)
    (h5 : (q.get? "estimated_fee").isSome = true) :
    get_quote src dst amt code body = .ok q := by
  obtain ⟨fs, rfl⟩ : ∃ fs, body = Json.obj fs := by
    cases body <;> first
      | exact ⟨_, rfl⟩
      | simp [Json.get?] at hdata
  obtain ⟨v1, hv1⟩ := Option.isSome_iff_exists.mp h1
  obtain ⟨v2, hv2⟩ := Option.isSome_iff_exists.mp h2
  obtain ⟨v3, hv3⟩ := Option.isSome_iff_exists.mp h3
  obtain ⟨v4, hv4⟩ := Option.isSome_iff_exists.mp h4
  obtain ⟨v5, hv5⟩ := Option.isSome_iff_exists.mp h5
  unfold get_quote raise_for_status
  simp [Nat.not_le.mpr hcode, Bind.bind, Except.bind, Json.pyGet, hstatus,
    Json.idx, hdata, hv1, hv2, hv3, hv4, hv5, pure, Except.pure]

/-- C7: a 2xx reply whose envelope status is not "success" and which
carries an error message makes `get_quote` raise the quote error with
exactly that message instead of returning a quote. -/
theorem C7_get_quote_error_envelope
    (src dst amt : String) (code : Nat) (body e m : Json)
    (hcode : code < 400)
    (hstatus : (body.getD "status" .null).eqStr "success" = false)
    (herr : body.get? "error" = some e)
    (hmsg : e.get? "message" = some m) :
    get_quote src dst amt code body = .error (.appError m) := by
  obtain ⟨fs, rfl⟩ : ∃ fs, body = Json.obj fs := by
    cases body <;> first
      | exact ⟨_, rfl⟩
      | simp [Json.get?] at herr
  obtain ⟨gs, rfl⟩ : ∃ gs, e = Json.obj gs := by
    cases e <;> first
      | exact ⟨_, rfl⟩
      | simp [Json.get?] at hmsg
  have he1 : (Json.obj fs).getD "error" (.obj []) = .obj gs := by
    simp [Json.getD, herr]
  have he2 : (Json.obj gs).getD "message" (.str "Failed to get quote") = m := by
    simp [Json.getD, hmsg]
  unfold get_quote raise_for_status
  simp [Nat.not_le.mpr hcode, Bind.bind, Except.bind, Json.pyGet, hstatus,
    he1, he2, throw, throwThe, MonadExceptOf.throw]

theorem C4_witness :
    (200 < 400 ∧
      ((successEnv quoteA).getD "status" .null).eqStr "success" = true ∧
      (successEnv quoteA).get? "data" = some quoteA) ∧
    get_quote "XLM" "USDC" "15.00" 200 (successEnv quoteA) = .ok quoteA :=
  ⟨⟨by decide, rfl, rfl⟩,
   C4_get_quote_returns_data_exactly "XLM" "USDC" "15.00" 200
     (successEnv quoteA) quoteA (by decide) rfl rfl rfl rfl rfl rfl rfl⟩

theorem C7_witness :
    (200 < 400 ∧
      (errorEnv.getD "status" .null).eqStr "success" = false ∧
      errorEnv.get? "error" =
        some (.obj [("message", .str "Unsupported currency pair")])) ∧
    get_quote "XLM" "USDC" "15.00" 200 errorEnv =
      .error (.appError (.str "Unsupported currency pair")) :=
  ⟨⟨by decide, rfl, rfl⟩,
   C7_get_quote_error_envelope "XLM" "USDC" "15.00" 200 errorEnv
     (.obj [("message", .str "Unsupported currency pair")])
     (.str "Unsupported currency pair") (by decide) rfl rfl rfl⟩

/-- C3: whenever `send_payment` returns a result dict, that dict carries
this invocation's intent id, and it is the success dict wrapping the
whole reply exactly when the reply's status was "completed"; for any
other status it is the failure dict carrying the reply's `error`
payload. -/
theorem C3_send_payment_classifies_response
    (agent : Agent) (details : Json) (intentId : String) (now : Nat)
    (body : Json) (r : SendResult)
    (h : send_payment agent details intentId now body = .ok r) :
    r.intent_id = intentId ∧
    ((body.getD "status" .null).eqStr "completed" = true →
      r.success = true ∧ r.confirmation = some body ∧ r.error = none) ∧
    ((body.getD "status" .null).eqStr "completed" = false →
      r.success = false ∧ r.confirmation = none ∧
        r.error = body.get? "error") := by
  unfold send_payment at h
  obtain ⟨_, _, h⟩ := exceptBind_ok h
  obtain ⟨sv, hsv, h⟩ := exceptBind_ok h
  rw [pyGet_ok hsv] at h
  cases hcond : (body.getD "status" .null).eqStr "completed" with
  | true =>
    rw [hcond] at h
    simp only [if_true] at h
    obtain ⟨td, htd, h⟩ := exceptBind_ok h
    obtain ⟨_, _, h⟩ := exceptBind_ok h
    obtain ⟨amt, hamt, h⟩ := exceptBind_ok h
    obtain ⟨_, _, h⟩ := exceptBind_ok h
    obtain ⟨_, _, h⟩ := exceptBind_ok h
    obtain ⟨_, _, h⟩ := exceptBind_ok h
    obtain ⟨_, _, h⟩ := exceptBind_ok h
    obtain ⟨fees, hfees, h⟩ := exceptBind_ok h
    obtain ⟨_, _, h⟩ := exceptBind_ok h
    obtain ⟨_, _, h⟩ := exceptBind_ok h
    simp only [pure, Except.pure, Except.ok.injEq] at h
    subst h
    exact ⟨rfl, fun _ => ⟨rfl, rfl, rfl⟩, fun hc => absurd hc (by simp)⟩
  | false =>
    rw [hcond] at h
    simp only [if_false, Bool.false_eq_true] at h
    obtain ⟨errEnv, herrEnv, h⟩ := exceptBind_ok h
    obtain ⟨_, _, h⟩ := exceptBind_ok h
    simp only [pure, Except.pure, Except.ok.injEq] at h
    subst h
    exact ⟨rfl, fun hc => absurd hc (by simp), fun _ => ⟨rfl, rfl, rfl⟩⟩

/-- The intent built by an invocation carries, at its `intent_id` and
`sender.authorization_token` keys, exactly that invocation's uuid draw
and freshly minted token; its recipient `destination_currency` falls back
to the request's `currency` when absent. -/
theorem build_payment_intent_fields
    (agent : Agent) (details : Json) (intentId : String) (now : Nat)
    (i : Json)
    (h : build_payment_intent agent details intentId now = .ok i) :
    i.get? "intent_id" = some (.str intentId) ∧
    i.get2? "sender" "authorization_token" =
      some (.str (generate_auth_token agent now)) ∧
    ∀ cur, details.get? "currency" = some cur →
      details.get? "destination_currency" = none →
      i.get2? "recipient" "destination_currency" = some cur := by
  unfold build_payment_intent at h
  obtain ⟨amount, hamount, h⟩ := exceptBind_ok h
  obtain ⟨currency, hcurrency, h⟩ := exceptBind_ok h
  obtain ⟨ra, hra, h⟩ := exceptBind_ok h
  obtain ⟨raddr, hraddr, h⟩ := exceptBind_ok h
  obtain ⟨defCur, hdefCur, h⟩ := exceptBind_ok h
  obtain ⟨destCur, hdestCur, h⟩ := exceptBind_ok h
  obtain ⟨metadata, hmeta, h⟩ := exceptBind_ok h
  have hdc := pyGet_ok hdestCur
  have hfields : ∀ cur, details.get? "currency" = some cur →
      details.get? "destination_currency" = none → destCur = cur := by
    intro cur hcur hnone
    rw [hdc, Json.getD, hnone]
    rw [Json.idx, hcur] at hdefCur
    exact (Except.ok.inj hdefCur).symm
  cases hcb : details.get? "callback_url" with
  | some cb =>
    rw [hcb] at h
    simp only [pure, Except.pure, Except.ok.injEq] at h
    subst h
    refine ⟨?_, ?_, fun cur hcur hnone => ?_⟩
    · simp [Json.setNew, Json.get?, Json.get2?, lookupField]
    · simp [Json.setNew, Json.get?, Json.get2?, lookupField]
    · simp [Json.setNew, Json.get?, Json.get2?, lookupField,
        hfields cur hcur hnone]
  | none =>
    rw [hcb] at h
    simp only [pure, Except.pure, Except.ok.injEq] at h
    subst h
    refine ⟨?_, ?_, fun cur hcur hnone => ?_⟩
    · simp [Json.get?, Json.get2?, lookupField]
    · simp [Json.get?, Json.get2?, lookupField]
    · simp [Json.get?, Json.get2?, lookupField, hfields cur hcur hnone]

section concreteWitnesses3
attribute [local semireducible] Rat.mul Rat.add Rat.inv Rat.sub Rat.ofScientific

theorem C3_witness :
    send_payment agentX reqA "intent-1" 1700000000 rejectedReply =
      .ok rejectedResult ∧
    (rejectedResult.intent_id = "intent-1" ∧
      ((rejectedReply.getD "status" .null).eqStr "completed" = true →
        rejectedResult.success = true ∧
          rejectedResult.confirmation = some rejectedReply ∧
          rejectedResult.error = none) ∧
      ((rejectedReply.getD "status" .null).eqStr "completed" = false →
        rejectedResult.success = false ∧
          rejectedResult.confirmation = none ∧
          rejectedResult.error = rejectedReply.get? "error")) :=
  ⟨by rfl,
   C3_send_payment_classifies_response agentX reqA "intent-1" 1700000000
     rejectedReply rejectedResult (by rfl)⟩

end concreteWitnesses3

/-- C8: each `send_payment` invocation's intent carries exactly the
intent id freshly drawn by that invocation and a token minted from that
invocation's own clock reading — nothing cached is reused — so two
invocations whose uuid draws differ submit intents with different
intent ids. -/
theorem C8_fresh_intent_id_and_token
    (agent : Agent) (d1 d2 : Json) (id1 id2 : String) (n1 n2 : Nat)
    (i1 i2 : Json)
    (hne : id1 ≠ id2)
    (h1 : build_payment_intent agent d1 id1 n1 = .ok i1)
    (h2 : build_payment_intent agent d2 id2 n2 = .ok i2) :
    i1.get? "intent_id" = some (.str id1) ∧
    i2.get? "intent_id" = some (.str id2) ∧
    i1.get? "intent_id" ≠ i2.get? "intent_id" ∧
    i1.get2? "sender" "authorization_token" =
      some (.str (generate_auth_token agent n1)) ∧
    i2.get2? "sender" "authorization_token" =
      some (.str (generate_auth_token agent n2)) := by
  obtain ⟨ha1, htok1, _⟩ := build_payment_intent_fields agent d1 id1 n1 i1 h1
  obtain ⟨ha2, htok2, _⟩ := build_payment_intent_fields agent d2 id2 n2 i2 h2
  refine ⟨ha1, ha2, ?_, htok1, htok2⟩
  rw [ha1, ha2]
  intro hcontra
  simp only [Option.some.injEq, Json.str.injEq] at hcontra
  exact hne hcontra

theorem C8_witness :
    ("intent-1" : String) ≠ "intent-2" ∧
    ((intentFixtureA "intent-1" 1700000000).get? "intent_id" =
        some (.str "intent-1") ∧
      (intentFixtureA "intent-2" 1700000100).get? "intent_id" =
        some (.str "intent-2") ∧
      (intentFixtureA "intent-1" 1700000000).get? "intent_id" ≠
        (intentFixtureA "intent-2" 1700000100).get? "intent_id" ∧
      (intentFixtureA "intent-1" 1700000000).get2? "sender"
          "authorization_token" =
        some (.str (generate_auth_token agentX 1700000000)) ∧
      (intentFixtureA "intent-2" 1700000100).get2? "sender"
          "authorization_token" =
        some (.str (generate_auth_token agentX 1700000100))) :=
  ⟨by decide,
   C8_fresh_intent_id_and_token agentX reqA reqA "intent-1" "intent-2"
     1700000000 1700000100 (intentFixtureA "intent-1" 1700000000)
     (intentFixtureA "intent-2" 1700000100) (by decide) (by rfl) (by rfl)⟩

/-- C9: when the payment request lacks a `destination_currency` key, the
request's own `currency` substitutes for it — in the argument triple
`evaluate_payment` passes to `get_quote` and in the recipient block of
the intent `send_payment` builds — so a same-currency transfer is the
default. -/
theorem C9_destination_defaults_to_source_currency :
    (∀ req cur amt, req.get? "destination_currency" = none →
      req.get? "currency" = some cur →
      req.get? "amount" = some amt →
      evaluate_quote_args req = .ok (cur, cur, amt)) ∧
    (∀ agent details intentId now i cur,
      details.get? "destination_currency" = none →
      details.get? "currency" = some cur →
      build_payment_intent agent details intentId now = .ok i →
      i.get2? "recipient" "destination_currency" = some cur) := by
  constructor
  · intro req cur amt hnone hcur hamt
    obtain ⟨fs, rfl⟩ : ∃ fs, req = Json.obj fs := by
      cases req <;> first
        | exact ⟨_, rfl⟩
        | simp [Json.get?] at hcur
    unfold evaluate_quote_args
    simp [Json.idx, hcur, hamt, Json.pyGet, Json.getD, hnone,
      Bind.bind, Except.bind, pure, Except.pure]
  · intro agent details intentId now i cur hnone hcur hbuild
    exact (build_payment_intent_fields agent details intentId now i
      hbuild).2.2 cur hcur hnone

theorem C9_witness :
    (reqNoDest.get? "destination_currency" = none ∧
      reqNoDest.get? "currency" = some (.str "XLM") ∧
      evaluate_quote_args reqNoDest =
        .ok (.str "XLM", .str "XLM", .str "15.00")) ∧
    (build_payment_intent agentX reqNoDest "intent-3" 1700000000 =
        .ok (intentFixtureND "intent-3" 1700000000) ∧
      (intentFixtureND "intent-3" 1700000000).get2? "recipient"
          "destination_currency" = some (.str "XLM")) :=
  ⟨⟨rfl, rfl,
    C9_destination_defaults_to_source_currency.1 reqNoDest (.str "XLM")
      (.str "15.00") rfl rfl rfl⟩,
   ⟨by rfl,
    C9_destination_defaults_to_source_currency.2 agentX reqNoDest "intent-3"
      1700000000 (intentFixtureND "intent-3" 1700000000) (.str "XLM") rfl rfl
      (by rfl)⟩⟩
